import Mathlib

/-
Verification of `gold_price_bot.py` (zjyiran/Price-Monitor).

The script is a linear fetch → format → send pipeline:
  * `get_gold_prices` / `get_semiconductor_prices` query yfinance for the
    last two daily closes of fixed symbol lists and compute day-over-day
    change and change percent;
  * `get_lipf6_price` scrapes an HTML page: it parses all tables, finds the
    first row mentioning "Lithium hexafluorophosphate" (case-insensitive),
    and returns the first cell value that parses as a float greater than
    1000;
  * `send_to_feishu` renders the results into a fixed-layout text report and
    posts it to a webhook;
  * the `__main__` block wires everything together, substituting tagged
    failure entries for the battery materials.

Shallow embedding conventions:
  * the network is an input: each fetcher takes the per-symbol outcome of
    `ticker.history(period="2d")` as a function argument (a list of closing
    prices, or a raised exception), the scraper takes the HTTP response
    (transport exception, or a status code plus the tables that
    `pd.read_html` would extract from the body), and the notifier takes the
    POST outcome;
  * prices are rationals (`ℚ`); Python/numpy floats are exact on the values
    exercised here.  A second model (`PyF`) at the end of the file extends
    numbers with the IEEE special values (finite / +inf / -inf / NaN) in
    order to exhibit the special values that a zero previous close makes
    the fetchers store.  Its finite arithmetic is exact: float64 rounding,
    underflow and overflow of finite operations are NOT modelled.  The
    `PyF` theorems therefore only use finite arithmetic at small integral
    values (where float64 is exact and cannot overflow) and the
    single-close branch (which stores literal zeros and performs no
    arithmetic at all); no theorem below asserts the absence of special
    values for general finite two-close histories, precisely because
    float64 overflow to ±inf is outside this model;
  * `print` logging is returned as data where a claim mentions it;
  * Python `str.strip` / `str.replace` / `float()` / format specifiers are
    modelled character-by-character below.  `float()` is modelled on its
    decimal and scientific forms; the `inf`/`nan` words and digit
    underscores accepted by Python never denote table prices and are
    outside the model.

Batteries marks `Rat.add/sub/mul/inv` `@[irreducible]`; the attribute is
restored to `semireducible` locally so that concrete runs of the model
evaluate inside `decide`/`rfl` proofs.  This does not change any
definition, only unfolding permissions.
-/

attribute [local semireducible] Rat.mul Rat.inv Rat.sub Rat.add

set_option maxRecDepth 40000

namespace PriceBot

/-! ## Python `float()` on cleaned cell text -/

/-- All characters are decimal digits. -/
def allDigits (cs : List Char) : Bool := cs.all Char.isDigit

/-- Numeric value of a digit string (most significant first). -/
def natOfDigits (cs : List Char) : Nat :=
  cs.foldl (fun a c => a * 10 + (c.toNat - 48)) 0

/-- Python `float()` on a plain decimal form: `123`, `123.`, `123.45`, `.45`
(no sign, no exponent). -/
def parseDec (cs : List Char) : Option ℚ :=
  let ip := cs.takeWhile (fun c => c ≠ '.')
  let rest := cs.dropWhile (fun c => c ≠ '.')
  match rest with
  | [] => if !cs.isEmpty && allDigits cs then some ((natOfDigits cs : ℚ)) else none
  | _ :: frac =>
    if frac.any (fun c => c = '.') then none
    else if ip.isEmpty && frac.isEmpty then none
    else if allDigits ip && allDigits frac then
      some ((natOfDigits ip : ℚ) + (natOfDigits frac : ℚ) / ((10 : ℚ) ^ frac.length))
    else none

/-- Value of the exponent part after `e`/`E`: optional sign then digits. -/
def parseExpVal (cs : List Char) : Option ℚ :=
  let sd := match cs with
    | '+' :: r => (false, r)
    | '-' :: r => (true, r)
    | r => (false, r)
  if !sd.2.isEmpty && allDigits sd.2 then
    let p : ℚ := (10 : ℚ) ^ natOfDigits sd.2
    some (if sd.1 then p⁻¹ else p)
  else none

/-- Python `float()` on an already-stripped character list: optional sign,
mantissa, optional `e`/`E` exponent. -/
def pyFloat (cs : List Char) : Option ℚ :=
  let sb : ℚ × List Char := match cs with
    | '+' :: r => (1, r)
    | '-' :: r => (-1, r)
    | r => (1, r)
  let mant := sb.2.takeWhile (fun c => c ≠ 'e' && c ≠ 'E')
  let rest := sb.2.dropWhile (fun c => c ≠ 'e' && c ≠ 'E')
  match rest with
  | [] => (parseDec mant).map (fun m => sb.1 * m)
  | _ :: ex =>
    match parseDec mant, parseExpVal ex with
    | some m, some e => some (sb.1 * m * e)
    | _, _ => none

/-- Python `str.strip()`: drop leading and trailing whitespace. -/
def trimChars (cs : List Char) : List Char :=
  ((cs.dropWhile Char.isWhitespace).reverse.dropWhile Char.isWhitespace).reverse

/-- Python `str.replace(',', '')`: drop every comma. -/
def dropCommas (cs : List Char) : List Char := cs.filter (fun c => c ≠ ',')

/-- `float(str(val).replace(',', '').strip())` from `get_lipf6_price`,
returning `none` where Python raises `ValueError`. -/
def parsePriceToken (val : String) : Option ℚ :=
  pyFloat (trimChars (dropCommas val.toList))

/-! ## Scraped-price extractor `get_lipf6_price` -/

/-- Decide whether `needle` starts the list `hay`. -/
def leadMatch : List Char → List Char → Bool
  | [], _ => true
  | _ :: _, [] => false
  | a :: as, b :: bs => a = b && leadMatch as bs

/-- Decide whether `needle` occurs contiguously inside the second list. -/
def occursIn (needle : List Char) : List Char → Bool
  | [] => needle.isEmpty
  | c :: t => leadMatch needle (c :: t) || occursIn needle t

/-- Lowercase every character (Python `.lower()`; the needle is ASCII). -/
def lowerChars (cs : List Char) : List Char := cs.map Char.toLower

/-- `x.astype(str).str.contains("Lithium hexafluorophosphate", case=False,
regex=False)` on one cell. -/
def cellMatches (cell : String) : Bool :=
  occursIn "lithium hexafluorophosphate".toList (lowerChars cell.toList)

/-- The row mask `mask.any(axis=1)`: some cell mentions the product. -/
def rowMatches (row : List String) : Bool := row.any cellMatches

/-- One iteration of the `for val in row_values` loop body: parse the cell,
keep it only when the value exceeds the `> 1000` sanity filter. -/
def priceCandidate (val : String) : Option ℚ :=
  match parsePriceToken val with
  | some p => if 1000 < p then some p else none
  | none => none

/-- Scan the cells of the matched row for the first accepted price. -/
def extractFromRow (row : List String) : Option ℚ :=
  row.findSome? priceCandidate

/-- A parsed HTML table: its rows of stringified cell values. -/
abbrev Table := List (List String)

/-- The `for df in dfs` loop: in each table take the first row matching the
product name (`df[mask].iloc[0]`); if its cells yield a price, return it,
otherwise continue with the remaining tables. -/
def findPrice : List Table → Option ℚ
  | [] => none
  | df :: rest =>
    match df.find? rowMatches with
    | some row =>
      match extractFromRow row with
      | some p => some p
      | none => findPrice rest
    | none => findPrice rest

/-- Outcome of `requests.get` + `pd.read_html` as seen by the scraper: a
transport exception raised by `requests.get`, or a status code together
with the result of `pd.read_html(response.text)` (which itself may raise,
e.g. when the page holds no table). -/
inductive HttpResult where
  | exn (msg : String)
  | resp (status : Nat) (body : Except String (List Table))

/-- The success record `{"name": ..., "price": ..., "unit": ..., "source": ...}`. -/
structure ScrapedPrice where
  name : String
  price : ℚ
  unit : String
  source : String
deriving DecidableEq, Repr

/-- The Chinese display name used for LiPF6. -/
def lipf6Name : String := "六氟磷酸锂 (LiPF6)"

/-- `get_lipf6_price`, with its `print` logging returned as data: `none`
plus a log line on a non-200 status, on a transport/parsing exception, and
when no table row yields a price; a `ScrapedPrice` record otherwise. -/
def get_lipf6_price (r : HttpResult) : Option ScrapedPrice × List String :=
  match r with
  | .exn msg => (none, ["Error fetching LiPF6 from SunSirs: " ++ msg])
  | .resp status body =>
    if status ≠ 200 then
      (none, ["SunSirs Error: Status Code " ++ Nat.repr status])
    else
      match body with
      | .error msg => (none, ["Error fetching LiPF6 from SunSirs: " ++ msg])
      | .ok dfs =>
        match findPrice dfs with
        | some p => (some ⟨lipf6Name, p, "元/吨", "SunSirs"⟩, [])
        | none => (none, ["SunSirs Warning: Product found but could not parse price from table."])

/-! ## Quote fetchers -/

/-- Outcome of `yf.Ticker(sym).history(period="2d")` for one symbol: the
column of closing prices in date order, or a raised exception. -/
inductive FetchOutcome where
  | ok (closes : List ℚ)
  | raise (msg : String)

/-- `series.iloc[-1]` (the default is only read under the length guards of
the callers). -/
def ilocNeg1 {α : Type} (dflt : α) (l : List α) : α := l.getLastD dflt

/-- `series.iloc[-2]`. -/
def ilocNeg2 {α : Type} (dflt : α) (l : List α) : α := l.dropLast.getLastD dflt

/-- A success record of either fetcher:
`{"price": ..., "change": ..., "change_percent": ..., "unit": ...}`. -/
structure Quote where
  price : ℚ
  change : ℚ
  change_percent : ℚ
  unit : String
deriving DecidableEq, Repr

/-- The gold symbol table, in dict insertion order. -/
def goldSymbols : List (String × String) :=
  [("GC=F", "Gold Futures (COMEX)"), ("GLD", "SPDR Gold Shares (ETF)")]

/-- Loop body of `get_gold_prices` for one symbol: two or more closes give
the full change computation, exactly one close gives zero change, and zero
closes or an exception adds nothing to the results dict. -/
def goldFetchOne (fetch : String → FetchOutcome) (sym name : String) :
    Option (String × Quote) :=
  match fetch sym with
  | .raise _ => none
  | .ok closes =>
    if 2 ≤ closes.length then
      let cur := ilocNeg1 0 closes
      let prev := ilocNeg2 0 closes
      let change := cur - prev
      some (name, ⟨cur, change, change / prev * 100, "$"⟩)
    else if closes.length = 1 then
      some (name, ⟨ilocNeg1 0 closes, 0, 0, "$"⟩)
    else none

/-- `get_gold_prices`: the results dict as an insertion-ordered list. -/
def get_gold_prices (fetch : String → FetchOutcome) : List (String × Quote) :=
  goldSymbols.filterMap (fun p => goldFetchOne fetch p.1 p.2)

/-- A value of the semiconductor results dict: a full quote, or the
`{"error": str(e)}` record inserted when the fetch raises. -/
inductive SemiEntry where
  | quote (q : Quote)
  | error (msg : String)
deriving DecidableEq, Repr

/-- The semiconductor symbol table `(symbol, name, unit)`. -/
def semiSymbols : List (String × String × String) :=
  [("000660.KS", "SK Hynix", "₩"),
   ("005930.KS", "Samsung Electronics", "₩"),
   ("285A.T", "Kioxia", "¥")]

/-- Loop body of `get_semiconductor_prices` for one symbol: an exception
inserts an error record; at least one close inserts a quote (zero change
without a second close); zero closes insert nothing. -/
def semiFetchOne (fetch : String → FetchOutcome) (sym name unit : String) :
    Option (String × SemiEntry) :=
  match fetch sym with
  | .raise msg => some (name, .error msg)
  | .ok closes =>
    if 1 ≤ closes.length then
      let cur := ilocNeg1 0 closes
      if 2 ≤ closes.length then
        let prev := ilocNeg2 0 closes
        let change := cur - prev
        some (name, .quote ⟨cur, change, change / prev * 100, unit⟩)
      else
        some (name, .quote ⟨cur, 0, 0, unit⟩)
    else none

/-- `get_semiconductor_prices`: the results dict as an ordered list. -/
def get_semiconductor_prices (fetch : String → FetchOutcome) :
    List (String × SemiEntry) :=
  semiSymbols.filterMap (fun t => semiFetchOne fetch t.1 t.2.1 t.2.2)

/-! ## Report formatter (the text-building part of `send_to_feishu`)

Python fixed-point formatting (`:,.2f`, `:+.2f`, `:,.0f`, `:+.0f`) rounds
the value to the requested number of decimals with ties to even, writes an
explicit sign when `+` is requested or the value is negative, and groups
the integer digits in threes when `,` is requested. -/

/-- Round `num / den` (`den > 0`) to the nearest integer, ties to even. -/
def rnd2even (num : Int) (den : Nat) : Int :=
  let f := Int.fdiv num den
  let r := num - f * den
  if 2 * r < (den : Int) then f
  else if (den : Int) < 2 * r then f + 1
  else if f % 2 = 0 then f else f + 1

/-- Insert a `,` after every third character of a reversed digit list. -/
def group3Rev : List Char → List Char
  | a :: b :: c :: d :: rest => a :: b :: c :: ',' :: group3Rev (d :: rest)
  | l => l

/-- Python fixed-point float formatting with `prec` decimals; `plus`
requests a `+` sign on nonnegative values and `comma` requests thousands
grouping. -/
def fmtFixed (plus comma : Bool) (prec : Nat) (q : ℚ) : String :=
  let n := rnd2even (q.num * (10 : Int) ^ prec) q.den
  let sign := if q.num < 0 then "-" else if plus then "+" else ""
  let ds0 := (Nat.repr n.natAbs).toList
  let ds := List.replicate (prec + 1 - ds0.length) '0' ++ ds0
  let ip := ds.take (ds.length - prec)
  let fp := ds.drop (ds.length - prec)
  let ipStr := String.mk (if comma then (group3Rev ip.reverse).reverse else ip)
  sign ++ ipStr ++ (if prec = 0 then "" else "." ++ String.mk fp)

/-- The line `trend` selection: the upward emoji when change >= 0, else the downward one. -/
def trendStr (change : ℚ) : String := if 0 ≤ change then "📈" else "📉"

/-- The three lines printed for one successful gold quote. -/
def goldQuoteLines (name : String) (q : Quote) : String :=
  "🔹 " ++ name ++ "\n" ++
  "   Price: `" ++ q.unit ++ fmtFixed false true 2 q.price ++ "`\n" ++
  "   Change: " ++ trendStr q.change ++ " `" ++ fmtFixed true false 2 q.change ++
    "` (`" ++ fmtFixed true false 2 q.change_percent ++ "%`)\n"

/-- The precious-metals section: header, then either the category-level
warning (empty dict) or the per-quote lines. -/
def goldSection (gold : List (String × Quote)) : String :=
  "🏆 **Precious Metals**\n" ++
    (if gold.isEmpty then "⚠️ Failed to fetch gold data.\n"
     else String.join (gold.map (fun p => goldQuoteLines p.1 p.2)))

/-- The lines printed for one semiconductor entry: the error line for a
tagged failure, otherwise name, zero-decimal price and signed change. -/
def semiEntryLines (name : String) (e : SemiEntry) : String :=
  match e with
  | .error msg => "🔸 " ++ name ++ ": `Error` (" ++ msg ++ ")\n"
  | .quote q =>
    "🔸 " ++ name ++ "\n" ++
    "   Price: `" ++ q.unit ++ fmtFixed false true 0 q.price ++ "`\n" ++
    "   Change: " ++ trendStr q.change ++ " `" ++ fmtFixed true false 0 q.change ++
      "` (`" ++ fmtFixed true false 2 q.change_percent ++ "%`)\n"

/-- The memory-and-storage section. -/
def semiSection (semi : List (String × SemiEntry)) : String :=
  "\n💾 **Memory & Storage**\n" ++
    (if semi.isEmpty then "⚠️ Failed to fetch semiconductor data.\n"
     else String.join (semi.map (fun p => semiEntryLines p.1 p.2)))

/-- An element of the `material_data` list built by `__main__`: the scraped
success record, or a `{"name": ..., "error": ...}` placeholder. -/
inductive MaterialItem where
  | ok (name : String) (price : ℚ) (unit source : String)
  | err (name msg : String)
deriving DecidableEq, Repr

/-- The `name` field present in both material shapes. -/
def materialName : MaterialItem → String
  | .ok name _ _ _ => name
  | .err name _ => name

/-- The lines printed for one battery-material item (`"error" in item` is
checked first). -/
def materialLines : MaterialItem → String
  | .err name msg => "🔹 " ++ name ++ ": `Unavailable` (" ++ msg ++ ")\n"
  | .ok name price unit source =>
    "🔹 " ++ name ++ "\n" ++
    "   Price: `" ++ fmtFixed false true 2 price ++ " " ++ unit ++ "`\n" ++
    "   Source: " ++ source ++ "\n"

/-- The battery-materials section. -/
def materialSection (mats : List MaterialItem) : String :=
  "\n🔋 **Battery Materials**\n" ++
    (if mats.isEmpty then "⚠️ Failed to fetch material data.\n"
     else String.join (mats.map materialLines))

/-- The full `content` string assembled by `send_to_feishu` (with the
`datetime.now()` timestamp supplied as `now`). -/
def buildContent (now : String) (gold : List (String × Quote))
    (semi : List (String × SemiEntry)) (mats : List MaterialItem) : String :=
  "📊 **Daily Price Monitoring Update**\n🕒 Time: " ++ now ++ "\n\n" ++
  goldSection gold ++ semiSection semi ++ materialSection mats ++ "\n---"

/-! ## Webhook notifier (the delivery part of `send_to_feishu`) -/

/-- Outcome of `requests.post` on the webhook: a response status, or a
transport exception. -/
inductive PostOutcome where
  | resp (status : Nat)
  | exn (msg : String)

/-- The log line `send_to_feishu` prints for a delivery outcome.  The
function is total: every non-200 status and every exception is consumed
here and nothing propagates to the caller. -/
def feishuDeliveryLog : PostOutcome → String
  | .resp status =>
    if status = 200 then "Successfully sent to Feishu."
    else "Failed to send to Feishu. Status: " ++ Nat.repr status
  | .exn msg => "Error sending to Feishu: " ++ msg

/-! ## Run orchestrator (`__main__`) -/

/-- The external world of one run: the per-symbol yfinance outcomes, the
SunSirs HTTP response, and the wall-clock timestamp string. -/
structure World where
  quotes : String → FetchOutcome
  sunsirs : HttpResult
  now : String

/-- The `material_data` list: the LiPF6 result or its tagged fallback,
then the VC placeholder. -/
def mainMaterials (w : World) : List MaterialItem :=
  (match (get_lipf6_price w.sunsirs).1 with
   | some s => [MaterialItem.ok s.name s.price s.unit s.source]
   | none => [MaterialItem.err lipf6Name "Fetch Failed (Check Logs)"])
  ++ [MaterialItem.err "碳酸亚乙烯酯 (VC)" "No Source"]

/-- The report text a run of `__main__` hands to the webhook. -/
def mainContent (w : World) : String :=
  buildContent w.now (get_gold_prices w.quotes)
    (get_semiconductor_prices w.quotes) (mainMaterials w)

/-! ## Extended numeric model for the NaN invariant

The closes returned by pandas are numpy `float64` values, and dividing by
a zero close yields an IEEE special value instead of raising.  `PyF`
extends the rationals with those special values so that the records the
fetchers store at a zero previous close can be computed.  The model is
one-sidedly faithful: its special-value propagation rules are IEEE, but
its finite arithmetic is exact, whereas float64 rounds and can itself
overflow a finite result to ±inf.  It is therefore only used below at
small integral closes — where every intermediate float64 result is exact
and far from overflow — and at the single-close branch, which stores the
literal constant 0 without doing arithmetic; it is NOT used to assert
that finite inputs never produce special values. -/

/-- A numpy `float64`: a finite value (kept exact), an infinity, or NaN. -/
inductive PyF where
  | fin (q : ℚ)
  | pinf
  | ninf
  | nan
deriving DecidableEq, Repr

/-- Subtraction with IEEE special-value propagation.  The finite case is
exact: float64 rounding and overflow of a finite difference to ±inf are
not modelled, so this is only applied where the exact difference is a
small integer (exactly representable, no overflow). -/
def PyF.sub : PyF → PyF → PyF
  | .fin a, .fin b => .fin (a - b)
  | .fin _, .pinf => .ninf
  | .fin _, .ninf => .pinf
  | .pinf, .fin _ => .pinf
  | .ninf, .fin _ => .ninf
  | .pinf, .pinf => .nan
  | .pinf, .ninf => .pinf
  | .ninf, .pinf => .ninf
  | .ninf, .ninf => .nan
  | .nan, _ => .nan
  | _, .nan => .nan

/-- Division with IEEE special-value propagation: `x/0` is NaN for `x = 0`
and a signed infinity otherwise (numpy reports these cases as warnings,
not exceptions; signed zero is not modelled).  The finite case with a
nonzero divisor is exact: float64 rounding, underflow, and overflow of a
large finite quotient to ±inf are not modelled, so this is only applied
where the exact quotient is float64-exact and far from overflow. -/
def PyF.div : PyF → PyF → PyF
  | .fin a, .fin b =>
    if b = 0 then (if a = 0 then .nan else if 0 < a then .pinf else .ninf)
    else .fin (a / b)
  | .fin _, .pinf => .fin 0
  | .fin _, .ninf => .fin 0
  | .pinf, .fin b => if 0 ≤ b then .pinf else .ninf
  | .ninf, .fin b => if 0 ≤ b then .ninf else .pinf
  | .pinf, .pinf => .nan
  | .pinf, .ninf => .nan
  | .ninf, .pinf => .nan
  | .ninf, .ninf => .nan
  | .nan, _ => .nan
  | _, .nan => .nan

/-- Multiplication with IEEE special-value propagation.  The finite case
is exact: float64 rounding and overflow of a finite product (such as the
×100 scaling step) to ±inf are not modelled, so this is only applied
where the exact product is a small exactly-representable value. -/
def PyF.mul : PyF → PyF → PyF
  | .fin a, .fin b => .fin (a * b)
  | .fin a, .pinf => if a = 0 then .nan else if 0 < a then .pinf else .ninf
  | .fin a, .ninf => if a = 0 then .nan else if 0 < a then .ninf else .pinf
  | .pinf, .fin b => if b = 0 then .nan else if 0 < b then .pinf else .ninf
  | .ninf, .fin b => if b = 0 then .nan else if 0 < b then .ninf else .pinf
  | .pinf, .pinf => .pinf
  | .pinf, .ninf => .ninf
  | .ninf, .pinf => .ninf
  | .ninf, .ninf => .pinf
  | .nan, _ => .nan
  | _, .nan => .nan

/-- `history` outcome with extended-value closes. -/
inductive FetchOutcomeF where
  | ok (closes : List PyF)
  | raise (msg : String)

/-- A fetcher record with extended-value numeric fields. -/
structure QuoteF where
  price : PyF
  change : PyF
  change_percent : PyF
  unit : String
deriving DecidableEq, Repr

/-- `get_gold_prices` loop body over extended values (same control flow,
numpy arithmetic). -/
def goldFetchOneF (fetch : String → FetchOutcomeF) (sym name : String) :
    Option (String × QuoteF) :=
  match fetch sym with
  | .raise _ => none
  | .ok closes =>
    if 2 ≤ closes.length then
      let cur := ilocNeg1 (PyF.fin 0) closes
      let prev := ilocNeg2 (PyF.fin 0) closes
      let change := cur.sub prev
      some (name, ⟨cur, change, (change.div prev).mul (PyF.fin 100), "$"⟩)
    else if closes.length = 1 then
      some (name, ⟨ilocNeg1 (PyF.fin 0) closes, PyF.fin 0, PyF.fin 0, "$"⟩)
    else none

/-- `get_gold_prices` over extended values. -/
def get_gold_pricesF (fetch : String → FetchOutcomeF) : List (String × QuoteF) :=
  goldSymbols.filterMap (fun p => goldFetchOneF fetch p.1 p.2)

/-- A semiconductor dict value over extended values. -/
inductive SemiEntryF where
  | quote (q : QuoteF)
  | error (msg : String)
deriving DecidableEq, Repr

/-- `get_semiconductor_prices` loop body over extended values. -/
def semiFetchOneF (fetch : String → FetchOutcomeF) (sym name unit : String) :
    Option (String × SemiEntryF) :=
  match fetch sym with
  | .raise msg => some (name, .error msg)
  | .ok closes =>
    if 1 ≤ closes.length then
      let cur := ilocNeg1 (PyF.fin 0) closes
      if 2 ≤ closes.length then
        let prev := ilocNeg2 (PyF.fin 0) closes
        let change := cur.sub prev
        some (name, .quote ⟨cur, change, (change.div prev).mul (PyF.fin 100), unit⟩)
      else
        some (name, .quote ⟨cur, PyF.fin 0, PyF.fin 0, unit⟩)
    else none

/-- `get_semiconductor_prices` over extended values. -/
def get_semiconductor_pricesF (fetch : String → FetchOutcomeF) :
    List (String × SemiEntryF) :=
  semiSymbols.filterMap (fun t => semiFetchOneF fetch t.1 t.2.1 t.2.2)

/-! ## Concrete fixtures used by the theorems below -/

/-- The synthetic SunSirs table row from the extraction test of the spec. -/
def c1row : List String :=
  ["Lithium hexafluorophosphate", "Chemicals", "95000", "2024-01-01"]

/-- A 200 response whose body parses to one table holding `c1row`. -/
def c1page : HttpResult := HttpResult.resp 200 (Except.ok [[c1row]])

/-- Quote fixture: GC=F closed at 1990 then 2000; GLD returned no rows. -/
def fetchFix : String → FetchOutcome :=
  fun s => if s = "GC=F" then FetchOutcome.ok [1990, 2000] else FetchOutcome.ok []

/-- A world where every fetch raises except GLD, and SunSirs returns 500. -/
def c2World : World :=
  { quotes := fun s => if s = "GLD" then FetchOutcome.ok [100, 110] else FetchOutcome.raise "boom"
    sunsirs := HttpResult.resp 500 (Except.ok [])
    now := "2024-01-01 00:00:00" }

/-- GC=F history whose two closes are both exactly zero. -/
def fetchC9 : String → FetchOutcomeF :=
  fun s => if s = "GC=F" then FetchOutcomeF.ok [PyF.fin 0, PyF.fin 0]
           else FetchOutcomeF.raise "no data"

/-- GC=F history with a zero previous close and latest close minus five
(all intermediate float64 results are exact small integers). -/
def fetchC9b : String → FetchOutcomeF :=
  fun s => if s = "GC=F" then FetchOutcomeF.ok [PyF.fin 0, PyF.fin (-5)]
           else FetchOutcomeF.raise "no data"

/-- Every symbol closed at 1990 then 2000. -/
def fetchW3 : String → FetchOutcome := fun _ => FetchOutcome.ok [1990, 2000]

/-- Every symbol has exactly one close, 42. -/
def fetchW4 : String → FetchOutcome := fun _ => FetchOutcome.ok [42]

/-- Every fetch raises. -/
def fetchW2 : String → FetchOutcome := fun _ => FetchOutcome.raise "x"

/-- Every symbol has exactly one extended-value close, 7. -/
def fetchW9 : String → FetchOutcomeF :=
  fun _ => FetchOutcomeF.ok [PyF.fin 7]

/-- GC=F raises; every other symbol has one close. -/
def fetchW10 : String → FetchOutcome :=
  fun s => if s = "GC=F" then FetchOutcome.raise "down" else FetchOutcome.ok [5]

/-! ## Helper lemmas -/

/-- A gold results entry is keyed by the configured display name. -/
theorem goldFetchOne_fst (fetch : String → FetchOutcome) (sym name : String)
    (r : String × Quote) (h : goldFetchOne fetch sym name = some r) : r.1 = name := by
  unfold goldFetchOne at h
  split at h
  · cases h
  · split at h
    · injection h with h
      rw [← h]
    · split at h
      · injection h with h
        rw [← h]
      · cases h

/-- A scraped success record always carries the LiPF6 display name. -/
theorem lipf6_result_name (r : HttpResult) (s : ScrapedPrice)
    (h : (get_lipf6_price r).1 = some s) : s.name = lipf6Name := by
  unfold get_lipf6_price at h
  split at h
  · cases h
  · split at h
    · cases h
    · split at h
      · cases h
      · split at h
        · injection h with h
          rw [← h]
        · cases h

/-! ## Claim theorems -/

/-- C1: on the synthetic page whose single table holds the row
["Lithium hexafluorophosphate", "Chemicals", "95000", "2024-01-01"], the
extractor returns a success record with price 95000; every cell value
whose parse does not exceed the 1000 threshold is rejected as a price
candidate; and the "2024-01-01" date cell is rejected as well (it is not a
numeric token at all, so it never reaches the threshold), while "95000" is
the accepted candidate. -/
theorem lipf6_table_extraction :
    (get_lipf6_price c1page).1 = some ⟨lipf6Name, 95000, "元/吨", "SunSirs"⟩
    ∧ (∀ (tok : String) (q : ℚ),
        parsePriceToken tok = some q → q ≤ 1000 → priceCandidate tok = none)
    ∧ parsePriceToken "2024-01-01" = none
    ∧ priceCandidate "95000" = some 95000 := by
  refine ⟨by decide, ?_, by decide, by decide⟩
  intro tok q hp hle
  simp only [priceCandidate, hp]
  rw [if_neg (not_lt.mpr hle)]

/-- C1 witness: a concrete small token, "500", is rejected. -/
theorem lipf6_table_extraction_witness : priceCandidate "500" = none :=
  lipf6_table_extraction.2.1 "500" 500 (by decide) (by decide)

/-- C2 counterexample: in a world where the GC=F fetch raises (while GLD
succeeds and SunSirs answers 500), the configured item "Gold Futures
(COMEX)" is not replaced by a tagged failure record — it is absent from
the fetcher results and from the final report text entirely, so the claim
that every configured item always appears is false. -/
theorem gold_symbol_absent_from_report :
    "Gold Futures (COMEX)" ∉ (get_gold_prices c2World.quotes).map Prod.fst
    ∧ occursIn "Gold Futures (COMEX)".toList (mainContent c2World).toList = false
    ∧ occursIn "SPDR Gold Shares (ETF)".toList (mainContent c2World).toList = true := by
  decide

/-- C2 (amended): the orchestrator substitutes tagged failure records for
the battery materials (LiPF6 and the VC placeholder always appear, success
or failure), and a semiconductor symbol whose fetch raises appears as a
tagged error record; gold symbols enjoy no such substitution. -/
theorem tagged_failure_substitution :
    ∀ (w : World) (fetch : String → FetchOutcome) (sym name unit msg : String),
      ((mainMaterials w).map materialName = [lipf6Name, "碳酸亚乙烯酯 (VC)"])
      ∧ ((sym, name, unit) ∈ semiSymbols → fetch sym = FetchOutcome.raise msg →
          (name, SemiEntry.error msg) ∈ get_semiconductor_prices fetch) := by
  intro w fetch sym name unit msg
  constructor
  · unfold mainMaterials
    cases hm : (get_lipf6_price w.sunsirs).1 with
    | some s => simp [materialName, lipf6_result_name w.sunsirs s hm]
    | none => simp [materialName]
  · intro hmem hf
    refine List.mem_filterMap.mpr ⟨(sym, name, unit), hmem, ?_⟩
    simp only [semiFetchOne, hf]

/-- C2 witness: the amended statement at a concrete world and fetch. -/
theorem tagged_failure_substitution_witness :
    (mainMaterials c2World).map materialName = [lipf6Name, "碳酸亚乙烯酯 (VC)"]
    ∧ ("SK Hynix", SemiEntry.error "x") ∈ get_semiconductor_prices fetchW2 :=
  ⟨(tagged_failure_substitution c2World fetchW2 "000660.KS" "SK Hynix" "₩" "x").1,
   (tagged_failure_substitution c2World fetchW2 "000660.KS" "SK Hynix" "₩" "x").2
     (by decide) rfl⟩

/-- C3: whenever the history of a configured symbol has at least two closes
with latest `latest` (iloc[-1]) and previous `prev` (iloc[-2]) and `prev ≠ 0`,
the record stored by either fetcher has change = latest − prev and
change_percent = (latest − prev)/prev × 100, exactly. -/
theorem change_formula_exact :
    ∀ (fetch : String → FetchOutcome) (sym name : String) (closes : List ℚ)
      (latest prev : ℚ),
      fetch sym = FetchOutcome.ok closes →
      2 ≤ closes.length →
      ilocNeg1 0 closes = latest →
      ilocNeg2 0 closes = prev →
      prev ≠ 0 →
      (((sym, name) ∈ goldSymbols →
          (name, (⟨latest, latest - prev, (latest - prev) / prev * 100, "$"⟩ : Quote))
            ∈ get_gold_prices fetch)
      ∧ (∀ unit : String, (sym, name, unit) ∈ semiSymbols →
          (name, SemiEntry.quote ⟨latest, latest - prev, (latest - prev) / prev * 100, unit⟩)
            ∈ get_semiconductor_prices fetch)) := by
  intro fetch sym name closes latest prev hf h2 hlat hprev hpnz
  subst hlat
  subst hprev
  constructor
  · intro hmem
    refine List.mem_filterMap.mpr ⟨(sym, name), hmem, ?_⟩
    simp only [goldFetchOne, hf, if_pos h2]
  · intro unit hmem
    refine List.mem_filterMap.mpr ⟨(sym, name, unit), hmem, ?_⟩
    have h1 : 1 ≤ closes.length := le_trans (by norm_num) h2
    simp only [semiFetchOne, hf, if_pos h1, if_pos h2]

/-- C3 witness: with closes [1990, 2000] for GC=F the gold record holds
the exact change and percentage. -/
theorem change_formula_exact_witness :
    ("Gold Futures (COMEX)",
        (⟨2000, 2000 - 1990, (2000 - 1990) / 1990 * 100, "$"⟩ : Quote))
      ∈ get_gold_prices fetchW3 :=
  (change_formula_exact fetchW3 "GC=F" "Gold Futures (COMEX)" [1990, 2000]
      2000 1990 rfl (by decide) (by decide) (by decide) (by decide)).1 (by decide)

/-- C4: a symbol whose history has exactly one close is still stored as a
success record, with change and change_percent both exactly 0. -/
theorem single_close_zero_change :
    ∀ (fetch : String → FetchOutcome) (sym name : String) (p : ℚ),
      fetch sym = FetchOutcome.ok [p] →
      (((sym, name) ∈ goldSymbols →
          (name, (⟨p, 0, 0, "$"⟩ : Quote)) ∈ get_gold_prices fetch)
      ∧ (∀ unit : String, (sym, name, unit) ∈ semiSymbols →
          (name, SemiEntry.quote ⟨p, 0, 0, unit⟩) ∈ get_semiconductor_prices fetch)) := by
  intro fetch sym name p hf
  constructor
  · intro hmem
    refine List.mem_filterMap.mpr ⟨(sym, name), hmem, ?_⟩
    simp only [goldFetchOne, hf]
    rfl
  · intro unit hmem
    refine List.mem_filterMap.mpr ⟨(sym, name, unit), hmem, ?_⟩
    simp only [semiFetchOne, hf]
    rfl

/-- C4 witness: a single close of 42 for SK Hynix yields a zero-change
success record. -/
theorem single_close_zero_change_witness :
    ("SK Hynix", SemiEntry.quote ⟨42, 0, 0, "₩"⟩) ∈ get_semiconductor_prices fetchW4 :=
  (single_close_zero_change fetchW4 "000660.KS" "SK Hynix" 42 rfl).2 "₩" (by decide)

/-- C5: a non-2xx HTTP status makes the extractor return the failure
signal (`none`) with a log line naming the status, and a transport
exception likewise returns `none` with a log line naming the cause; being
a total function, it never raises to its caller, and in both cases no
price record is returned. -/
theorem scraper_failure_yields_none :
    ∀ (status : Nat) (body : Except String (List Table)) (msg : String),
      ((status < 200 ∨ 300 ≤ status) →
        get_lipf6_price (HttpResult.resp status body)
          = (none, ["SunSirs Error: Status Code " ++ Nat.repr status]))
      ∧ get_lipf6_price (HttpResult.exn msg)
          = (none, ["Error fetching LiPF6 from SunSirs: " ++ msg]) := by
  intro status body msg
  constructor
  · intro h
    have hne : status ≠ 200 := by omega
    simp only [get_lipf6_price]
    rw [if_pos hne]
  · rfl

/-- C5 witness: a 404 response yields the failure signal and status log. -/
theorem scraper_failure_yields_none_witness :
    get_lipf6_price (HttpResult.resp 404 (Except.ok []))
      = (none, ["SunSirs Error: Status Code " ++ Nat.repr 404]) :=
  (scraper_failure_yields_none 404 (Except.ok []) "x").1 (Or.inr (by decide))

/-- C6: each report section is rendered independently; an empty category
renders its header plus a category-level warning line (gold, semiconductor
and material alike), and with zero metals results and one successful
equity result the metals section is exactly the warning while the equity
section carries the success entry. -/
theorem formatter_section_independence :
    goldSection [] = "🏆 **Precious Metals**\n⚠️ Failed to fetch gold data.\n"
    ∧ semiSection [] = "\n💾 **Memory & Storage**\n⚠️ Failed to fetch semiconductor data.\n"
    ∧ materialSection [] = "\n🔋 **Battery Materials**\n⚠️ Failed to fetch material data.\n"
    ∧ semiSection [("SK Hynix", SemiEntry.quote ⟨190000, 1000, 1/2, "₩"⟩)]
        = "\n💾 **Memory & Storage**\n🔸 SK Hynix\n   Price: `₩190,000`\n   Change: 📈 `+1000` (`+0.50%`)\n"
    ∧ buildContent "T" [] [("SK Hynix", SemiEntry.quote ⟨190000, 1000, 1/2, "₩"⟩)]
        [MaterialItem.err "碳酸亚乙烯酯 (VC)" "No Source"]
        = "📊 **Daily Price Monitoring Update**\n🕒 Time: T\n\n"
          ++ "🏆 **Precious Metals**\n⚠️ Failed to fetch gold data.\n"
          ++ "\n💾 **Memory & Storage**\n🔸 SK Hynix\n   Price: `₩190,000`\n   Change: 📈 `+1000` (`+0.50%`)\n"
          ++ "\n🔋 **Battery Materials**\n🔹 碳酸亚乙烯酯 (VC): `Unavailable` (No Source)\n"
          ++ "\n---" := by
  decide

/-- C7: the formatter prints the upward indicator exactly when change ≥ 0
and the downward indicator exactly when change < 0; on the fixture
(GC=F closes 1990 then 2000) the fetcher yields change 10 and percent
100/199, rendered as an upward entry with "+10.00" and "+0.50%". -/
theorem trend_indicator_and_fixture :
    (∀ c : ℚ, (trendStr c = "📈" ↔ 0 ≤ c) ∧ (trendStr c = "📉" ↔ c < 0))
    ∧ get_gold_prices fetchFix = [("Gold Futures (COMEX)", ⟨2000, 10, 100/199, "$"⟩)]
    ∧ goldQuoteLines "Gold Futures (COMEX)" ⟨2000, 10, 100/199, "$"⟩
        = "🔹 Gold Futures (COMEX)\n   Price: `$2,000.00`\n   Change: 📈 `+10.00` (`+0.50%`)\n" := by
  refine ⟨?_, by decide, by decide⟩
  intro c
  unfold trendStr
  by_cases h : 0 ≤ c
  · rw [if_pos h]
    exact ⟨⟨fun _ => h, fun _ => rfl⟩,
           ⟨fun he => absurd he (by decide), fun hlt => absurd h (not_le.mpr hlt)⟩⟩
  · rw [if_neg h]
    exact ⟨⟨fun he => absurd he (by decide), fun hc => absurd hc h⟩,
           ⟨fun _ => lt_of_not_ge h, fun _ => rfl⟩⟩

/-- C7 witness: a negative change renders the downward indicator. -/
theorem trend_indicator_and_fixture_witness : trendStr (-5) = "📉" :=
  (trend_indicator_and_fixture.1 (-5)).2.mpr (by decide)

/-- C8 counterexample: HTTP 201 is a 2xx status, yet the notifier logs it
as a delivery failure (and its log carries the status code, not a response
body), so "a 2xx response signals success" is false on the code. -/
theorem status_201_logged_as_failure :
    feishuDeliveryLog (PostOutcome.resp 201) = "Failed to send to Feishu. Status: 201"
    ∧ feishuDeliveryLog (PostOutcome.resp 201) ≠ "Successfully sent to Feishu." := by
  decide

/-- C8 (amended): exactly HTTP 200 signals success; any other status is
caught and logged with the status code, and a transport exception is
caught and logged with its message; the notifier is a total function, so
nothing (HTTP 500 included) propagates an exception to the caller. -/
theorem delivery_log_classification :
    ∀ (status : Nat) (msg : String),
      (status = 200 →
        feishuDeliveryLog (PostOutcome.resp status) = "Successfully sent to Feishu.")
      ∧ (status ≠ 200 →
        feishuDeliveryLog (PostOutcome.resp status)
          = "Failed to send to Feishu. Status: " ++ Nat.repr status)
      ∧ feishuDeliveryLog (PostOutcome.exn msg) = "Error sending to Feishu: " ++ msg := by
  intro status msg
  refine ⟨fun h => ?_, fun h => ?_, rfl⟩
  · simp only [feishuDeliveryLog]
    rw [if_pos h]
  · simp only [feishuDeliveryLog]
    rw [if_neg h]

/-- C8 witness: HTTP 500 is logged as a failure with its status code. -/
theorem delivery_log_classification_witness :
    feishuDeliveryLog (PostOutcome.resp 500)
      = "Failed to send to Feishu. Status: " ++ Nat.repr 500 :=
  (delivery_log_classification 500 "x").2.1 (by decide)

/-- C9 counterexample: numpy float arithmetic does not raise on division
by a zero close.  With a GC=F history whose two closes are both 0, the
gold fetcher stores a record whose change_percent is NaN; with closes 0
then -5 it stores change_percent = -inf.  Every intermediate value in
these runs is an exact small-integer float64 or an IEEE special value, so
the runs are float64-faithful, and the claim that change/change_percent
are never NaN or negative infinity is false on the code. -/
theorem nan_change_percent_produced :
    get_gold_pricesF fetchC9
      = [("Gold Futures (COMEX)", ⟨PyF.fin 0, PyF.fin 0, PyF.nan, "$"⟩)]
    ∧ (⟨PyF.fin 0, PyF.fin 0, PyF.nan, "$"⟩ : QuoteF).change_percent = PyF.nan
    ∧ get_gold_pricesF fetchC9b
      = [("Gold Futures (COMEX)", ⟨PyF.fin (-5), PyF.fin (-5), PyF.ninf, "$"⟩)]
    ∧ (⟨PyF.fin (-5), PyF.fin (-5), PyF.ninf, "$"⟩ : QuoteF).change_percent = PyF.ninf := by
  decide

/-- C9 (amended): the never-NaN / never-negative-infinity part of the
invariant fails (see the counterexample); what holds is the explicit-zero
contract for absent prior data: when a symbol has exactly one close, both
fetchers store a success record whose change and change_percent are the
literal constant zero — a dedicated code branch that performs no
arithmetic, so no float special value can arise there — and that stored
zero is a finite value, not NaN or an infinity and not a sentinel. -/
theorem explicit_zero_no_prior :
    ∀ (fetch : String → FetchOutcomeF) (sym name : String) (p : ℚ),
      fetch sym = FetchOutcomeF.ok [PyF.fin p] →
      (((sym, name) ∈ goldSymbols →
          (name, (⟨PyF.fin p, PyF.fin 0, PyF.fin 0, "$"⟩ : QuoteF))
            ∈ get_gold_pricesF fetch)
      ∧ (∀ unit : String, (sym, name, unit) ∈ semiSymbols →
          (name, SemiEntryF.quote ⟨PyF.fin p, PyF.fin 0, PyF.fin 0, unit⟩)
            ∈ get_semiconductor_pricesF fetch)
      ∧ (PyF.fin 0 ≠ PyF.nan ∧ PyF.fin 0 ≠ PyF.ninf ∧ PyF.fin 0 ≠ PyF.pinf)) := by
  intro fetch sym name p hf
  refine ⟨?_, ?_, by decide⟩
  · intro hmem
    refine List.mem_filterMap.mpr ⟨(sym, name), hmem, ?_⟩
    simp only [goldFetchOneF, hf]
    rfl
  · intro unit hmem
    refine List.mem_filterMap.mpr ⟨(sym, name, unit), hmem, ?_⟩
    simp only [semiFetchOneF, hf]
    rfl

/-- C9 witness: a single close of 7 for GC=F yields the literal-zero
record. -/
theorem explicit_zero_no_prior_witness :
    ("Gold Futures (COMEX)", (⟨PyF.fin 7, PyF.fin 0, PyF.fin 0, "$"⟩ : QuoteF))
      ∈ get_gold_pricesF fetchW9 :=
  (explicit_zero_no_prior fetchW9 "GC=F" "Gold Futures (COMEX)" 7 rfl).1 (by decide)

/-- C10: a gold symbol whose fetch raises, or returns zero data points, is
omitted from the gold results entirely (its display name is absent);
every stored gold record is a full success quote (in particular its unit
field is the dollar sign — there is no error variant in the gold result
type); by contrast the semiconductor fetcher inserts a tagged error
record when its fetch raises. -/
theorem gold_omission_semi_error_contrast :
    ∀ (fetch : String → FetchOutcome) (msg : String),
      (fetch "GC=F" = FetchOutcome.raise msg →
        "Gold Futures (COMEX)" ∉ (get_gold_prices fetch).map Prod.fst)
      ∧ (fetch "GC=F" = FetchOutcome.ok [] →
        "Gold Futures (COMEX)" ∉ (get_gold_prices fetch).map Prod.fst)
      ∧ (∀ (name : String) (q : Quote),
          (name, q) ∈ get_gold_prices fetch → q.unit = "$")
      ∧ (fetch "000660.KS" = FetchOutcome.raise msg →
        ("SK Hynix", SemiEntry.error msg) ∈ get_semiconductor_prices fetch) := by
  intro fetch msg
  have habs : goldFetchOne fetch "GC=F" "Gold Futures (COMEX)" = none →
      "Gold Futures (COMEX)" ∉ (get_gold_prices fetch).map Prod.fst := by
    intro hnone hmem
    rcases List.mem_map.mp hmem with ⟨x, hx, hfst⟩
    rcases List.mem_filterMap.mp hx with ⟨a, ha, hfa⟩
    simp only [goldSymbols, List.mem_cons, List.not_mem_nil, or_false] at ha
    rcases ha with ha | ha
    · subst ha
      rw [hnone] at hfa
      cases hfa
    · subst ha
      have := goldFetchOne_fst fetch "GLD" "SPDR Gold Shares (ETF)" x hfa
      rw [this] at hfst
      exact absurd hfst (by decide)
  refine ⟨fun hf => habs ?_, fun hf => habs ?_, ?_, fun hf => ?_⟩
  · simp [goldFetchOne, hf]
  · simp [goldFetchOne, hf]
  · intro name q hq
    rcases List.mem_filterMap.mp hq with ⟨a, ha, hfa⟩
    simp only [goldSymbols, List.mem_cons, List.not_mem_nil, or_false] at ha
    have hunit : ∀ sym nm, goldFetchOne fetch sym nm = some (name, q) → q.unit = "$" := by
      intro sym nm h
      unfold goldFetchOne at h
      split at h
      · cases h
      · split at h
        · injection h with h
          injection h with hA hB
          subst hB
          rfl
        · split at h
          · injection h with h
            injection h with hA hB
            subst hB
            rfl
          · cases h
    rcases ha with ha | ha
    · subst ha
      exact hunit _ _ hfa
    · subst ha
      exact hunit _ _ hfa
  · refine List.mem_filterMap.mpr ⟨("000660.KS", "SK Hynix", "₩"), by decide, ?_⟩
    simp only [semiFetchOne, hf]

/-- C10 witness: a concrete world where GC=F raises while the others
succeed with one close. -/
theorem gold_omission_semi_error_contrast_witness :
    "Gold Futures (COMEX)" ∉ (get_gold_prices fetchW10).map Prod.fst :=
  (gold_omission_semi_error_contrast fetchW10 "down").1 rfl

end PriceBot
